import Mathlib

/-!
Verification of `api_advanced/1-top_ten.py`.

The file `1-top_ten.py` defines a single function `top_ten(subreddit)` that
issues one HTTP GET to `https://www.reddit.com/r/{subreddit}/hot.json`
(redirects disabled, timeout 10s), inspects the status code, parses the JSON
body, and prints the titles of the first 10 hot posts, printing the sentinel
string "None" on the various failure paths.

Shallow embedding choices:
* The network is modelled as an oracle `NetOutcome`: either the `requests.get`
  call raises a `RequestException` (DNS failure, refused connection, timeout),
  or it yields a response with an integer status code and a body.  The body is
  modelled post-`response.json()` as `Option Json`: `none` means the body is
  not valid JSON (so `.json()` raises `ValueError`), `some j` means it parses
  to the value `j`.
* Parsed JSON values are the inductive `Json` (null, booleans, numbers,
  strings, arrays, objects).  JSON numbers are modelled as `Int`; no claim
  touches numeric fields.  Objects are association lists; since Python's JSON
  parser produces dicts (unique keys), lookup is first-match.
* Python exceptions are explicit: every partial operation (the `in` operator,
  subscription, `len`, attribute access such as `.get` on a non-dict) returns
  `Except PyExc _`.  The `try:` block of the source is modelled by running the
  body to a pair `(printed lines so far, optional uncaught exception)`; the
  two `except` clauses at lines 157-167 catch every modelled exception and
  print "None".
* The argument `subreddit` may be any dynamically-typed value; the modelled
  universe `PyVal` has strings, ints, booleans, `None` and lists.
* Printing is modelled by returning the list of printed lines; `print(x)`
  prints `str(x)`, modelled by `pyStrOf`.
* The result also counts how many network calls were performed (0 or 1).
-/

/-- A parsed JSON value, as produced by `response.json()` in the source.
Numbers are modelled as integers; objects are association lists. -/
inductive Json where
  | null : Json
  | bool (b : Bool) : Json
  | num (n : Int) : Json
  | str (s : String) : Json
  | arr (xs : List Json) : Json
  | obj (kvs : List (String × Json)) : Json

/-- A Python exception, as can be raised inside the `try:` block of
`top_ten` (source lines 91-156) and caught at lines 157-167. -/
inductive PyExc where
  /-- `requests.exceptions.RequestException`: network-level failure of the
  `requests.get` call at line 95 (DNS, refused connection, timeout). -/
  | requestExc : PyExc
  /-- `TypeError`, e.g. `'data' in 5` or `[..]['data']` or `len(True)`. -/
  | typeError : PyExc
  /-- `KeyError`, raised by subscripting a dict with an absent key. -/
  | keyError : PyExc
  /-- `AttributeError`, raised by `.get` on a value that is not a dict. -/
  | attributeError : PyExc
  /-- `IndexError`, raised by subscripting a list out of range. -/
  | indexError : PyExc

/-- The outcome of the single `requests.get` call at source line 95: either
the call raises a `RequestException`, or a response arrives with a status
code and a body (already decoded by `.json()`: `none` = invalid JSON). -/
inductive NetOutcome where
  | raiseReq : NetOutcome
  | resp (status : Nat) (body : Option Json) : NetOutcome

/-- A dynamically-typed Python value passed as the `subreddit` argument. -/
inductive PyVal where
  | pyStr (s : String) : PyVal
  | pyInt (n : Int) : PyVal
  | pyBool (b : Bool) : PyVal
  | pyNone : PyVal
  | pyList (xs : List PyVal) : PyVal

/-- The observable effect of one call to `top_ten`: the lines written to
standard output, and how many network requests were issued. -/
structure RunResult where
  lines : List String
  netCalls : Nat

/-- First-match lookup in a JSON object's association list (Python dict
subscript / membership / `.get` all use key equality on strings). -/
def alookup : List (String × Json) → String → Option Json
  | [], _ => none
  | (k, v) :: kvs, key => if k == key then some v else alookup kvs key

/-- Is `needle` a prefix of `hay` (on character lists)? -/
def lstarts : List Char → List Char → Bool
  | [], _ => true
  | _ :: _, [] => false
  | a :: as, b :: bs => a == b && lstarts as bs

/-- Is `needle` a contiguous substring of `hay` (on character lists)? -/
def lsub (needle : List Char) : List Char → Bool
  | [] => lstarts needle []
  | b :: bs => lstarts needle (b :: bs) || lsub needle bs

/-- Python's `needle in hay` for strings: substring containment. -/
def strIn (needle hay : String) : Bool :=
  lsub needle.toList hay.toList

/-- Python truthiness (`bool(x)`) of a JSON value, used by `if not posts:`
(source line 137) and `if title:` (source line 149). -/
def jTruthy : Json → Bool
  | .null => false
  | .bool b => b
  | .num n => !(n == 0)
  | .str s => !(s == "")
  | .arr xs => !xs.isEmpty
  | .obj kvs => !kvs.isEmpty

/-- Python's `key in x` for a string key: key membership for dicts, element
membership for lists (a string equals only an equal string), substring test
for strings, `TypeError` otherwise. -/
def inOp (key : String) (j : Json) : Except PyExc Bool :=
  match j with
  | .obj kvs => .ok (alookup kvs key).isSome
  | .arr xs => .ok (xs.any fun x => match x with | .str s => s == key | _ => false)
  | .str s => .ok (strIn key s)
  | _ => .error .typeError

/-- Python's `x[key]` for a string key: dict lookup (`KeyError` if absent),
`TypeError` on lists, strings and scalars. -/
def getItem (j : Json) (key : String) : Except PyExc Json :=
  match j with
  | .obj kvs =>
    match alookup kvs key with
    | some v => .ok v
    | none => .error .keyError
  | _ => .error .typeError

/-- Python's `x[i]` for a non-negative integer index: list element or
one-character string (`IndexError` out of range), `KeyError` on dicts whose
keys are strings, `TypeError` on scalars. -/
def indexInt (j : Json) (i : Nat) : Except PyExc Json :=
  match j with
  | .arr xs =>
    match xs[i]? with
    | some x => .ok x
    | none => .error .indexError
  | .str s =>
    match s.toList[i]? with
    | some ch => .ok (.str (String.singleton ch))
    | none => .error .indexError
  | .obj _ => .error .keyError
  | _ => .error .typeError

/-- Python's `len(x)`: `TypeError` on scalars. -/
def pyLen : Json → Except PyExc Nat
  | .arr xs => .ok xs.length
  | .str s => .ok s.length
  | .obj kvs => .ok kvs.length
  | _ => .error .typeError

/-- One apostrophe, as used by Python `repr` of strings. -/
def pyQuote : String := String.singleton (Char.ofNat 39)

mutual

/-- Python `repr` of a JSON value (as used by `str` on lists and dicts).
String reprs always use single quotes; the claims only ever print string
titles, so the container rendering is not load-bearing. -/
def pyRepr : Json → String
  | .null => "None"
  | .bool true => "True"
  | .bool false => "False"
  | .num n => toString n
  | .str s => pyQuote ++ s ++ pyQuote
  | .arr xs => "[" ++ pyReprList xs ++ "]"
  | .obj kvs => "\x7b" ++ pyReprObj kvs ++ "\x7d"

/-- Comma-separated reprs of a list's elements. -/
def pyReprList : List Json → String
  | [] => ""
  | x :: xs =>
    pyRepr x ++ (match xs with | [] => "" | _ :: _ => ", ") ++ pyReprList xs

/-- Comma-separated `key: value` reprs of a dict's entries. -/
def pyReprObj : List (String × Json) → String
  | [] => ""
  | (k, v) :: kvs =>
    pyQuote ++ k ++ pyQuote ++ ": " ++ pyRepr v ++
      (match kvs with | [] => "" | _ :: _ => ", ") ++ pyReprObj kvs

end

/-- Python `str(x)`, as printed by `print(title)` at source line 150. -/
def pyStrOf : Json → String
  | .str s => s
  | .num n => toString n
  | .bool true => "True"
  | .bool false => "False"
  | .null => "None"
  | .arr xs => pyRepr (.arr xs)
  | .obj kvs => pyRepr (.obj kvs)

/-- Python truthiness of the `subreddit` argument (`not subreddit`,
source line 76). -/
def pyTruthy : PyVal → Bool
  | .pyStr s => !(s == "")
  | .pyInt n => !(n == 0)
  | .pyBool b => b
  | .pyNone => false
  | .pyList xs => !xs.isEmpty

/-- `isinstance(subreddit, str)` (source line 76). -/
def isPyStr : PyVal → Bool
  | .pyStr _ => true
  | _ => false

/-- The URL built at source line 82 from the subreddit name. -/
def requestUrl (subreddit : String) : String :=
  "https://www.reddit.com/r/" ++ subreddit ++ "/hot.json"

/-- The body of one iteration of the loop at source lines 143-150, given the
element `p = posts[i]`:
`post_data = posts[i].get('data', {})`, `title = post_data.get('title', '')`,
`if title: print(title)`.  Returns the lines printed by this iteration, or
the exception it raises (`.get` on a non-dict raises `AttributeError`). -/
def childStep (p : Json) : Except PyExc (List String) :=
  match p with
  | .obj kvs =>
    match (alookup kvs "data").getD (.obj []) with
    | .obj kvs2 =>
      let title := (alookup kvs2 "title").getD (.str "")
      .ok (if jTruthy title then [pyStrOf title] else [])
    | _ => .error .attributeError
  | _ => .error .attributeError

/-- One iteration of `for i in range(count):` (source line 143): subscript
`posts[i]`, then run the loop body on the element. -/
def loopIter (posts : Json) (i : Nat) : Except PyExc (List String) :=
  match indexInt posts i with
  | .error e => .error e
  | .ok p => childStep p

/-- `for i in range(count)` starting at index `i` with `k` iterations left:
accumulates the printed lines, stopping at the first raised exception (the
lines printed before it remain on standard output). -/
def runLoopFrom (posts : Json) (i : Nat) : Nat → List String × Option PyExc
  | 0 => ([], none)
  | k + 1 =>
    match loopIter posts i with
    | .error e => ([], some e)
    | .ok ls =>
      let (rest, e) := runLoopFrom posts (i + 1) k
      (ls ++ rest, e)

/-- The whole loop `for i in range(count):` at source lines 143-150. -/
def runLoop (posts : Json) (count : Nat) : List String × Option PyExc :=
  runLoopFrom posts 0 count

/-- Source lines 136-155, given `posts = data['data']['children']`:
`if not posts: print("None"); return`, `count = min(10, len(posts))`,
the print loop, and the (dead) `if count == 0: print("None")` check. -/
def postsStage (posts : Json) : List String × Option PyExc :=
  if !(jTruthy posts) then (["None"], none)
  else
    match pyLen posts with
    | .error e => ([], some e)
    | .ok n =>
      let count := min 10 n
      match runLoop posts count with
      | (ls, some e) => (ls, some e)
      | (ls, none) => if count == 0 then (ls ++ ["None"], none) else (ls, none)

/-- Source lines 127-155, given the parsed JSON `data`: the structure check
`if 'data' not in data or 'children' not in data['data']:` (left-to-right,
short-circuiting, and each sub-expression may raise), then
`posts = data['data']['children']` and the posts stage.  `data['data']` is
evaluated twice in the source; it is deterministic, so the model reuses the
first result. -/
def bodyAfterParse (data : Json) : List String × Option PyExc :=
  match inOp "data" data with
  | .error e => ([], some e)
  | .ok false => (["None"], none)
  | .ok true =>
    match getItem data "data" with
    | .error e => ([], some e)
    | .ok inner =>
      match inOp "children" inner with
      | .error e => ([], some e)
      | .ok false => (["None"], none)
      | .ok true =>
        match getItem inner "children" with
        | .error e => ([], some e)
        | .ok posts => postsStage posts

/-- The `try:` block, source lines 91-155: the network call, the status-code
checks (302 → "None", 403 → "None", any other non-200 → "None"), the JSON
parse (invalid JSON → `ValueError`, caught locally at lines 120-125 →
"None"), then the structure checks and the print loop. -/
def tryBlock (net : NetOutcome) : List String × Option PyExc :=
  match net with
  | .raiseReq => ([], some .requestExc)
  | .resp status body =>
    if status == 302 then (["None"], none)
    else if status == 403 then (["None"], none)
    else if status != 200 then (["None"], none)
    else
      match body with
      | none => (["None"], none)
      | some data => bodyAfterParse data

/-- The `except` clauses at source lines 157-167: any exception escaping the
`try:` block is caught (both `RequestException` and the catch-all
`Exception`) and "None" is printed after whatever was already printed. -/
def finishTry : List String × Option PyExc → List String
  | (ls, none) => ls
  | (ls, some _) => ls ++ ["None"]

/-- `top_ten(subreddit)` of `1-top_ten.py`: input validation at lines 76-78
(falsy or non-string argument → print "None", no network call), then the
`try:` block wrapped by the `except` handlers.  The result records the
printed lines and the number of network calls (0 or 1). -/
def top_ten (subreddit : PyVal) (net : NetOutcome) : RunResult :=
  if !(pyTruthy subreddit) || !(isPyStr subreddit) then ⟨["None"], 0⟩
  else ⟨finishTry (tryBlock net), 1⟩

/-- The module-level mutable state of `1-top_ten.py`.  The module body only
imports `requests` and defines `top_ten`; no global variable is ever
assigned and the function has no mutable default arguments or closures, so
the state carried between calls is trivial. -/
def ModuleState : Type := Unit

/-- One call to `top_ten` threaded through the module state: it produces its
observable result and leaves the module state unchanged (the function body
assigns no global). -/
def top_ten_call (st : ModuleState) (subreddit : PyVal) (net : NetOutcome) :
    RunResult × ModuleState :=
  (top_ten subreddit net, st)

/-- Path extractor used to state claims: the value at `data -> children` of
a parsed JSON body, when the body is an object whose `data` entry is an
object with a `children` entry. -/
def childrenVal : Json → Option Json
  | .obj kvs =>
    match alookup kvs "data" with
    | some (.obj kvs2) => alookup kvs2 "children"
    | _ => none
  | _ => none

/-- Title extractor used to state claims: the value the loop body would
print for a child element, following the source's navigation
`c.get('data', {}).get('title', '')`, rendered by `str`. -/
def titleStr (c : Json) : String :=
  match c with
  | .obj kvs =>
    match (alookup kvs "data").getD (.obj []) with
    | .obj kvs2 => pyStrOf ((alookup kvs2 "title").getD (.str ""))
    | _ => ""
  | _ => ""

/-- A child element that the loop prints: a dict whose `data` entry is a
dict carrying a non-empty string `title`. -/
def goodChild (c : Json) : Bool :=
  match c with
  | .obj kvs =>
    match (alookup kvs "data").getD (.obj []) with
    | .obj kvs2 =>
      match alookup kvs2 "title" with
      | some (.str t) => !(t == "")
      | _ => false
    | _ => false
  | _ => false

/-- A child element that the loop silently skips: a dict whose `data` entry
is a dict (possibly the `{}` default) whose `title` is missing or the empty
string. -/
def skippedChild (c : Json) : Bool :=
  match c with
  | .obj kvs =>
    match (alookup kvs "data").getD (.obj []) with
    | .obj kvs2 =>
      match alookup kvs2 "title" with
      | none => true
      | some (.str t) => t == ""
      | _ => false
    | _ => false
  | _ => false

/-- Is the value a JSON object (a Python dict)? -/
def Json.isObj : Json → Bool
  | .obj _ => true
  | _ => false

/-- Structural restatement of the print loop over the list of children it
actually visits: used to characterise `runLoop` on arrays. -/
def listLoop : List Json → List String × Option PyExc
  | [] => ([], none)
  | p :: ps =>
    match childStep p with
    | .error e => ([], some e)
    | .ok ls =>
      let (rest, e) := listLoop ps
      (ls ++ rest, e)

/-- A well-formed listing body whose `data -> children` is the given list:
`{"data": {"children": [...]}}`. -/
def mkListing (cs : List Json) : Json :=
  .obj [("data", .obj [("children", .arr cs)])]


/-- A child element of the canonical shape `{"data": {"title": t}}`, used in
concrete test fixtures. -/
def mkChild (t : String) : Json :=
  .obj [("data", .obj [("title", .str t)])]

/-! ### Helper lemmas -/
theorem childStep_good (c : Json) (h : goodChild c = true) :
    childStep c = .ok [titleStr c] ∧ titleStr c ≠ "" := by
  revert h
  cases c <;> simp only [goodChild, childStep, titleStr] <;> try simp
  case obj kvs =>
    split
    next kvs2 heq =>
      split
      next t heq2 =>
        intro h
        simp only [Bool.not_eq_eq_eq_not, Bool.not_true, beq_eq_false_iff_ne, ne_eq] at h
        simp [heq2, jTruthy, pyStrOf, h]
      next => simp
    next => simp

theorem childStep_notObj (c : Json) (h : c.isObj = false) :
    childStep c = .error .attributeError := by
  cases c <;> simp_all [Json.isObj, childStep]

theorem childStep_skipped (c : Json) (h : skippedChild c = true) :
    childStep c = .ok [] := by
  revert h
  cases c <;> simp only [skippedChild, childStep] <;> try simp
  case obj kvs =>
    split
    next kvs2 heq =>
      split
      next heq2 => simp [heq2, jTruthy]
      next t heq2 =>
        intro h
        simp only [beq_iff_eq] at h
        simp [heq2, h, jTruthy]
      next => simp
    next => simp
theorem loopIter_zero (c : Json) (cs : List Json) :
    loopIter (.arr (c :: cs)) 0 = childStep c := by
  simp [loopIter, indexInt]

theorem loopIter_succ (c : Json) (cs : List Json) (i : Nat) :
    loopIter (.arr (c :: cs)) (i + 1) = loopIter (.arr cs) i := by
  simp [loopIter, indexInt]

theorem runLoopFrom_shift (c : Json) (cs : List Json) :
    ∀ (k i : Nat), runLoopFrom (.arr (c :: cs)) (i + 1) k = runLoopFrom (.arr cs) i k := by
  intro k
  induction k with
  | zero => intro i; rfl
  | succ k ih =>
    intro i
    simp only [runLoopFrom, loopIter_succ, ih (i + 1)]

theorem runLoopFrom_eq_listLoop :
    ∀ (cs : List Json) (count : Nat), count ≤ cs.length →
      runLoopFrom (.arr cs) 0 count = listLoop (cs.take count) := by
  intro cs
  induction cs with
  | nil =>
    intro count h
    have hc : count = 0 := Nat.le_zero.mp h
    subst hc
    rfl
  | cons c cs ih =>
    intro count h
    cases count with
    | zero => rfl
    | succ k =>
      simp only [runLoopFrom, loopIter_zero, List.take_succ_cons, listLoop,
        runLoopFrom_shift]
      rw [ih k (by simpa using h)]

theorem listLoop_good (l : List Json) (h : ∀ c ∈ l, goodChild c = true) :
    listLoop l = (l.map titleStr, none) := by
  induction l with
  | nil => rfl
  | cons c cs ih =>
    have hc := (childStep_good c (h c (by simp))).1
    simp only [listLoop, hc, List.map_cons]
    rw [ih (fun x hx => h x (by simp [hx]))]
    simp

theorem listLoop_bad (pre : List Json) (bad : Json) (tail : List Json)
    (hpre : ∀ c ∈ pre, goodChild c = true) (hbad : bad.isObj = false) :
    listLoop (pre ++ bad :: tail) = (pre.map titleStr, some .attributeError) := by
  induction pre with
  | nil => simp [listLoop, childStep_notObj bad hbad]
  | cons c cs ih =>
    have hc := (childStep_good c (hpre c (by simp))).1
    simp only [List.cons_append, listLoop, hc, List.map_cons, List.append_eq]
    rw [ih (fun x hx => hpre x (by simp [hx]))]
    simp
theorem take_min_ten (cs : List Json) : cs.take (min 10 cs.length) = cs.take 10 := by
  rw [List.take_eq_take]
  omega

theorem postsStage_arr (cs : List Json) (hne : cs ≠ []) :
    postsStage (.arr cs) = listLoop (cs.take 10) := by
  have htr : jTruthy (.arr cs) = true := by
    simp [jTruthy, List.isEmpty_iff, hne]
  simp only [postsStage, htr, Bool.not_true, Bool.false_eq_true, if_false, pyLen]
  rw [runLoop, runLoopFrom_eq_listLoop cs (min 10 cs.length) (Nat.min_le_right 10 cs.length),
    take_min_ten]
  have hcount : (min 10 cs.length == 0) = false := by
    have hlen : cs.length ≠ 0 := fun hc => hne (List.length_eq_zero.mp hc)
    simp only [beq_eq_false_iff_ne, ne_eq]
    omega
  cases hl : listLoop (cs.take 10) with
  | mk ls e =>
    cases e with
    | none => simp [hcount]
    | some ex => simp

theorem bodyAfterParse_children (j posts : Json) (h : childrenVal j = some posts) :
    bodyAfterParse j = postsStage posts := by
  revert h
  cases j <;> simp only [childrenVal] <;> try simp
  case obj kvs =>
    split
    next kvs2 hd =>
      intro h
      simp [bodyAfterParse, inOp, getItem, hd, h]
    next => simp

theorem noPath_sentinel (j : Json) (h : childrenVal j = none) :
    finishTry (bodyAfterParse j) = ["None"] := by
  revert h
  cases j with
  | null => intro h; simp [bodyAfterParse, inOp, finishTry]
  | bool b => intro h; simp [bodyAfterParse, inOp, finishTry]
  | num n => intro h; simp [bodyAfterParse, inOp, finishTry]
  | str s =>
    intro h
    simp only [bodyAfterParse, inOp]
    cases strIn "data" s <;> simp [getItem, finishTry]
  | arr xs =>
    intro h
    simp only [bodyAfterParse, inOp]
    cases xs.any fun x => match x with | .str s => s == "data" | _ => false <;>
      simp [getItem, finishTry]
  | obj kvs =>
    simp only [childrenVal]
    split
    next kvs2 hd =>
      intro h
      simp [bodyAfterParse, inOp, getItem, hd, h, finishTry]
    next hne =>
      intro _
      cases hd2 : alookup kvs "data" with
      | none => simp [bodyAfterParse, inOp, hd2, finishTry]
      | some v2 =>
        cases v2 with
        | obj kvs2 => exact absurd hd2 (hne kvs2)
        | null => simp [bodyAfterParse, inOp, getItem, hd2, finishTry]
        | bool b => simp [bodyAfterParse, inOp, getItem, hd2, finishTry]
        | num n => simp [bodyAfterParse, inOp, getItem, hd2, finishTry]
        | str s =>
          simp only [bodyAfterParse, inOp, getItem, hd2]
          cases strIn "children" s <;> simp [finishTry]
        | arr xs =>
          simp only [bodyAfterParse, inOp, getItem, hd2]
          cases xs.any fun x => match x with | .str s => s == "children" | _ => false <;>
            simp [finishTry]

theorem top_ten_pyStr (name : String) (h : name ≠ "") (net : NetOutcome) :
    top_ten (.pyStr name) net = ⟨finishTry (tryBlock net), 1⟩ := by
  simp [top_ten, pyTruthy, isPyStr, h]

theorem tryBlock_200 (body : Option Json) :
    tryBlock (.resp 200 body) =
      (match body with
       | none => (["None"], none)
       | some data => bodyAfterParse data) := rfl

theorem getElem?_append_cons (pre : List Json) (c : Json) (rest : List Json) :
    (pre ++ c :: rest)[pre.length]? = some c := by
  induction pre with
  | nil => simp
  | cons p ps ih => simpa using ih

theorem take_append_cons (pre : List Json) (bad : Json) (rest : List Json) (d : Nat) :
    (pre ++ bad :: rest).take (pre.length + d + 1) = pre ++ bad :: rest.take d := by
  induction pre with
  | nil => simp [List.take_succ_cons]
  | cons p ps ih =>
    simp only [List.cons_append, List.length_cons]
    have harith : ps.length + 1 + d + 1 = ps.length + d + 1 + 1 := by omega
    rw [harith, List.take_succ_cons, ih]

/-! ### Claim theorems -/

/-- Claim C1 (code bug): the claim says that for a 200 response with a
non-empty `data.children` list, if after filtering (skipping entries with a
missing or empty title) zero titles were printed, `top_ten` prints the
sentinel "None".  The code instead prints nothing at all: the guard at
source line 154 tests `count == 0`, but `count = min(10, len(posts)) ≥ 1`
whenever the non-emptiness check at line 137 has passed, so the guard is
dead — contradicting the comment at lines 152-153.  This theorem evaluates
the code at the failing input: a 200 response whose single child carries an
empty title produces no output at all. -/
theorem top_ten_all_empty_titles_prints_nothing :
    (top_ten (.pyStr "python")
      (.resp 200 (some (mkListing [.obj [("data", .obj [("title", .str "")])]])))).lines
      = [] := rfl

/-- Claim C2 (code bug): the claim says every failure condition results in
the sentinel "None" being printed.  The spec's own failure taxonomy includes
"a result list whose entries all lack a usable title field", and on that
condition the code prints nothing (see C1): no exception is raised, and the
dead `count == 0` guard never fires.  This theorem evaluates the code at the
failing input — two children both lacking a `title` — showing the printed
output is empty, with no sentinel.  (The no-exception half of the claim does
hold: `top_ten` is total in the model, every modelled exception being caught
at source lines 157-167.) -/
theorem top_ten_unusable_titles_no_sentinel :
    (top_ten (.pyStr "python")
      (.resp 200 (some (mkListing [.obj [("data", .obj [])], .obj []])))).lines
      = [] := rfl

/-- Claim C3, counterexample: as stated the claim quantifies over every
200 response whose `data.children` list has `n` elements all carrying
non-empty string titles, and asserts exactly `min(n, 10)` printed lines.
At `n = 0` the hypothesis holds vacuously but the code prints the sentinel
"None" (one line) at source line 138, not `0` lines. -/
theorem top_ten_good_children_zero_cex :
    (top_ten (.pyStr "python") (.resp 200 (some (mkListing [])))).lines ≠
      (([] : List Json).take 10).map titleStr := by
  decide

/-- Claim C3 (amended: the children list is non-empty): for every 200
response whose parsed body has a `data.children` list `cs` of `n ≥ 1`
elements each carrying a non-empty string title, `top_ten` prints exactly
`min(n, 10)` lines — the titles of the first `min(n, 10)` elements, in the
original order (`(cs.take 10).map titleStr`). -/
theorem top_ten_good_children_titles (name : String) (hname : name ≠ "")
    (j : Json) (cs : List Json)
    (hpath : childrenVal j = some (.arr cs))
    (hne : cs ≠ [])
    (hgood : ∀ c ∈ cs, goodChild c = true) :
    (top_ten (.pyStr name) (.resp 200 (some j))).lines = (cs.take 10).map titleStr := by
  rw [top_ten_pyStr name hname]
  show finishTry (tryBlock (.resp 200 (some j))) = _
  have h1 : tryBlock (.resp 200 (some j)) = bodyAfterParse j := rfl
  rw [h1, bodyAfterParse_children j (.arr cs) hpath, postsStage_arr cs hne,
    listLoop_good (cs.take 10) (fun c hc => hgood c (List.take_subset _ _ hc))]
  rfl

/-- Claim C3, witness: a fixture with three titled posts prints exactly the
three titles in order. -/
theorem top_ten_good_children_titles_witness :
    (top_ten (.pyStr "python")
      (.resp 200 (some (mkListing [mkChild "a", mkChild "b", mkChild "c"])))).lines
      = ["a", "b", "c"] :=
  (top_ten_good_children_titles "python" (by decide)
    (mkListing [mkChild "a", mkChild "b", mkChild "c"])
    [mkChild "a", mkChild "b", mkChild "c"] rfl (List.cons_ne_nil _ _) (by decide)).trans
    (by decide)

/-- Claim C4: for every HTTP response whose status code is not 200 —
including any 3xx redirect (notably 302) and 403 — `top_ten` prints exactly
the sentinel "None" and prints no titles (source lines 100-116). -/
theorem top_ten_non200_sentinel (s : PyVal) (status : Nat) (body : Option Json)
    (h : status ≠ 200) :
    (top_ten s (.resp status body)).lines = ["None"] := by
  by_cases hv : (!(pyTruthy s) || !(isPyStr s)) = true
  · simp [top_ten, hv]
  · simp only [top_ten, hv, if_false]
    show finishTry (tryBlock (.resp status body)) = _
    have h200 : (status != 200) = true := by simpa using h
    simp only [tryBlock]
    by_cases h302 : (status == 302) = true
    · simp [h302, finishTry]
    · by_cases h403 : (status == 403) = true
      · simp [h302, h403, finishTry]
      · simp [h302, h403, h200, finishTry]

/-- Claim C4, witness: a 302 redirect produces exactly the sentinel. -/
theorem top_ten_non200_sentinel_witness :
    (top_ten (.pyStr "python") (.resp 302 none)).lines = ["None"] :=
  top_ten_non200_sentinel (.pyStr "python") 302 none (by decide)

/-- Claim C5: for the empty string and for every non-string input value,
`top_ten` prints exactly the sentinel "None" and performs zero network
calls (validation at source lines 76-78 happens before the request). -/
theorem top_ten_invalid_input_sentinel (v : PyVal) (net : NetOutcome)
    (h : v = .pyStr "" ∨ isPyStr v = false) :
    (top_ten v net).lines = ["None"] ∧ (top_ten v net).netCalls = 0 := by
  have hcond : (!(pyTruthy v) || !(isPyStr v)) = true := by
    rcases h with h | h
    · subst h; rfl
    · simp [h]
  simp [top_ten, hcond]

/-- Claim C5, witness: the integer `5` produces exactly the sentinel with no
network call, for any would-be network outcome. -/
theorem top_ten_invalid_input_sentinel_witness :
    (top_ten (.pyInt 5) .raiseReq).lines = ["None"] ∧
      (top_ten (.pyInt 5) .raiseReq).netCalls = 0 :=
  top_ten_invalid_input_sentinel (.pyInt 5) .raiseReq (Or.inr rfl)

/-- Claim C6: for every 200 response whose body is not valid JSON (so
`response.json()` raises `ValueError`, caught at source lines 120-125),
`top_ten` prints exactly the sentinel "None" and no titles. -/
theorem top_ten_invalid_json_sentinel (s : PyVal) :
    (top_ten s (.resp 200 none)).lines = ["None"] := by
  by_cases hv : (!(pyTruthy s) || !(isPyStr s)) = true
  · simp [top_ten, hv]
  · simp [top_ten, hv, tryBlock, finishTry]

/-- Claim C7: for every 200 response whose parsed JSON lacks the nested
`data.children` path, and for every one where `data.children` is an empty
list, `top_ten` prints exactly the sentinel "None" and no titles (source
lines 127-139; shapes on which the `in` operator or subscription raises are
caught by the handlers at lines 157-167 and also print only "None"). -/
theorem top_ten_missing_structure_sentinel (s : PyVal) (j : Json)
    (h : childrenVal j = none ∨ childrenVal j = some (.arr [])) :
    (top_ten s (.resp 200 (some j))).lines = ["None"] := by
  by_cases hv : (!(pyTruthy s) || !(isPyStr s)) = true
  · simp [top_ten, hv]
  · simp only [top_ten, hv, if_false]
    show finishTry (tryBlock (.resp 200 (some j))) = _
    have h1 : tryBlock (.resp 200 (some j)) = bodyAfterParse j := rfl
    rcases h with h | h
    · rw [h1]
      exact noPath_sentinel j h
    · rw [h1, bodyAfterParse_children j (.arr []) h]
      rfl

/-- Claim C7, witness: a 200 response whose body is the empty JSON object
produces exactly the sentinel. -/
theorem top_ten_missing_structure_sentinel_witness :
    (top_ten (.pyStr "python") (.resp 200 (some (.obj [])))).lines = ["None"] :=
  top_ten_missing_structure_sentinel (.pyStr "python") (.obj []) (Or.inl rfl)

/-- Claim C8: calling `top_ten` twice with the same input and the same fixed
response produces identical printed output both times.  The module state
threaded between the calls is trivial (`1-top_ten.py` assigns no global and
the function keeps no state), so the second call — run from the state the
first call leaves behind — prints exactly what the first call printed. -/
theorem top_ten_idempotent (st : ModuleState) (s : PyVal) (net : NetOutcome) :
    ((top_ten_call st s net).1).lines =
      ((top_ten_call ((top_ten_call st s net).2) s net).1).lines := rfl

/-- Claim C9: failure during title extraction is not atomic.  If the
children are `pre ++ bad :: rest` where the first `pre.length < 10` elements
are well-formed titled posts and `bad` is not a mapping, the loop prints the
titles of `pre`, then `bad.get('data', {})` raises `AttributeError` (source
line 145), the handler at lines 164-167 prints "None", and the titles
already printed remain: the total output is `k` title lines followed by the
sentinel. -/
theorem top_ten_midloop_exception (name : String) (hname : name ≠ "")
    (j : Json) (pre : List Json) (bad : Json) (rest : List Json)
    (hpath : childrenVal j = some (.arr (pre ++ bad :: rest)))
    (hpre : ∀ c ∈ pre, goodChild c = true)
    (hlen : pre.length < 10)
    (hbad : bad.isObj = false) :
    (top_ten (.pyStr name) (.resp 200 (some j))).lines = pre.map titleStr ++ ["None"] := by
  rw [top_ten_pyStr name hname]
  show finishTry (tryBlock (.resp 200 (some j))) = _
  have h1 : tryBlock (.resp 200 (some j)) = bodyAfterParse j := rfl
  rw [h1, bodyAfterParse_children j (.arr (pre ++ bad :: rest)) hpath,
    postsStage_arr (pre ++ bad :: rest) (by simp)]
  have h10 : (10 : Nat) = pre.length + (10 - pre.length - 1) + 1 := by omega
  rw [h10, take_append_cons pre bad rest (10 - pre.length - 1),
    listLoop_bad pre bad (rest.take (10 - pre.length - 1)) hpre hbad]
  rfl

/-- Claim C9, witness: one titled post followed by a non-mapping child
prints the title and then the sentinel. -/
theorem top_ten_midloop_exception_witness :
    (top_ten (.pyStr "python")
      (.resp 200 (some (mkListing [mkChild "First post", .str "oops"])))).lines
      = ["First post", "None"] :=
  (top_ten_midloop_exception "python" (by decide)
    (mkListing [mkChild "First post", .str "oops"])
    [mkChild "First post"] (.str "oops") [] rfl (by decide) (by decide) rfl).trans
    (by decide)

/-- Claim C10: a child element whose `title` field is missing or is the empty
string is silently skipped — the loop iteration that processes it (the body
of the `for` loop at source lines 143-150, `loopIter`, applied at that
element's index) prints no line at all, rather than a blank line. -/
theorem top_ten_skipped_child (c : Json) (h : skippedChild c = true)
    (pre rest : List Json) :
    loopIter (.arr (pre ++ c :: rest)) pre.length = .ok [] := by
  simp only [loopIter, indexInt, getElem?_append_cons]
  exact childStep_skipped c h

/-- Claim C10, witness: a child whose `data` object has no `title` key
yields no printed line from its loop iteration. -/
theorem top_ten_skipped_child_witness :
    loopIter (.arr [.obj [("data", .obj [])]]) 0 = .ok [] := by
  exact top_ten_skipped_child (.obj [("data", .obj [])]) (by decide) [] []
